import Mathlib

/-!
# Verification of the API-key dashboard core

Shallow embedding of the API-key record lifecycle of this repository:
the `GET`/`POST` route handlers of `src/app/api/keys/route.ts`, the
view-model operations of `src/app/dashboards/page.tsx` (create, edit/save,
rotate, toggle status, delete, toast notifications, client-side filtering),
and the store semantics of `src/supabase-schema.sql` (the `updated_at`
trigger).  Timestamps are modelled as `Nat`; the random suffix of a
generated secret and the store-assigned `id`/`created_at`/`updated_at`
are explicit parameters.  The `PATCH`/`DELETE /keys/[id]` route handler
is not part of the sources and is modelled from the spec where needed.
-/

/-- One API-key record, after `ApiKey` in `src/app/dashboards/page.tsx`
(and the `api_keys` table of `src/supabase-schema.sql`).  `status` and
`environment` are kept as strings, as in the TypeScript runtime; the
schema's CHECK constraints appear as predicates below. -/
structure ApiKey where
  id : String
  name : String
  secret : String
  status : String
  scopes : List String
  created_at : Nat
  last_used : Option Nat
  environment : String
  updated_at : Nat
deriving DecidableEq, Repr

/-- The schema CHECK constraint `status IN ('active', 'revoked')`. -/
def validStatus (s : String) : Prop := s = "active" ∨ s = "revoked"

instance (s : String) : Decidable (validStatus s) := by
  unfold validStatus; infer_instance

/-- Ordering `ORDER BY created_at DESC`: `a` may come before `b` when
`b.created_at ≤ a.created_at`. -/
def createdDesc (a b : ApiKey) : Prop := b.created_at ≤ a.created_at

instance : DecidableRel createdDesc :=
  fun a b => inferInstanceAs (Decidable (b.created_at ≤ a.created_at))

instance : IsTotal ApiKey createdDesc :=
  ⟨fun a b => Nat.le_total b.created_at a.created_at⟩

instance : IsTrans ApiKey createdDesc :=
  ⟨fun _ _ _ hab hbc => Nat.le_trans hbc hab⟩

/-- The `GET /api/keys` handler (`src/app/api/keys/route.ts`, lines 5-43)
on its success path: the supabase query selects all rows ordered by
`created_at` descending, and an `eq` filter is chained for each of the
`status` / `environment` query parameters that is present, non-empty
(JS truthiness of the string) and not the sentinel `"all"`. -/
def GETkeys (status environment : Option String) (store : List ApiKey) :
    List ApiKey :=
  let sorted := List.insertionSort createdDesc store
  let afterStatus :=
    match status with
    | some s => if s ≠ "" ∧ s ≠ "all"
        then sorted.filter (fun r => r.status == s) else sorted
    | none => sorted
  match environment with
  | some e => if e ≠ "" ∧ e ≠ "all"
      then afterStatus.filter (fun r => r.environment == e) else afterStatus
  | none => afterStatus

/-- The test the `status` dimension applies to a row, as a Boolean. -/
def statusTest (p : Option String) (r : ApiKey) : Bool :=
  match p with
  | none => true
  | some s => if s ≠ "" ∧ s ≠ "all" then r.status == s else true

/-- The test the `environment` dimension applies to a row, as a Boolean. -/
def envTest (p : Option String) (r : ApiKey) : Bool :=
  match p with
  | none => true
  | some e => if e ≠ "" ∧ e ≠ "all" then r.environment == e else true

theorem GETkeys_eq_filter (status environment : Option String)
    (store : List ApiKey) :
    GETkeys status environment store =
      ((List.insertionSort createdDesc store).filter
        (statusTest status)).filter (envTest environment) := by
  cases status with
  | none =>
    cases environment with
    | none => simp [GETkeys, statusTest, envTest]
    | some e =>
      by_cases h : e ≠ "" ∧ e ≠ "all" <;>
        simp [GETkeys, statusTest, envTest, h]
  | some s =>
    by_cases hs : s ≠ "" ∧ s ≠ "all" <;> cases environment with
    | none => simp [GETkeys, statusTest, envTest, hs]
    | some e =>
      by_cases he : e ≠ "" ∧ e ≠ "all" <;>
        simp [GETkeys, statusTest, envTest, hs, he]

/-- The constraint the `status` dimension of a list request puts on a
returned record: none when the parameter is absent or `"all"`, equality
otherwise. -/
def statusConstraint (p : Option String) (r : ApiKey) : Prop :=
  match p with
  | none => True
  | some s => s = "all" ∨ r.status = s

/-- The constraint the `environment` dimension puts on a returned record. -/
def envConstraint (p : Option String) (r : ApiKey) : Prop :=
  match p with
  | none => True
  | some e => e = "all" ∨ r.environment = e

theorem statusTest_iff (p : Option String) (hp : p ≠ some ("")) (r : ApiKey) :
    statusTest p r = true ↔ statusConstraint p r := by
  cases p with
  | none => simp [statusTest, statusConstraint]
  | some s =>
    have hs : s ≠ "" := fun h => hp (by rw [h])
    by_cases hall : s = "all" <;>
      simp [statusTest, statusConstraint, hs, hall]

theorem envTest_iff (p : Option String) (hp : p ≠ some ("")) (r : ApiKey) :
    envTest p r = true ↔ envConstraint p r := by
  cases p with
  | none => simp [envTest, envConstraint]
  | some e =>
    have hs : e ≠ "" := fun h => hp (by rw [h])
    by_cases hall : e = "all" <;>
      simp [envTest, envConstraint, hs, hall]

/-- C1: For every list request whose provided parameters are non-empty
strings, a record is returned iff it is in the store and satisfies the
equality filter of each dimension whose parameter is provided and not
`"all"` (the two dimensions combining conjunctively), and the result is
ordered by `created_at` descending. -/
theorem GETkeys_filters_and_orders (status environment : Option String)
    (store : List ApiKey) (hs : status ≠ some ("")) (he : environment ≠ some ("")) :
    (∀ r, r ∈ GETkeys status environment store ↔
      r ∈ store ∧ statusConstraint status r ∧ envConstraint environment r)
    ∧ (GETkeys status environment store).Sorted createdDesc := by
  have hsorted : (List.insertionSort createdDesc store).Sorted createdDesc :=
    List.sorted_insertionSort createdDesc store
  rw [GETkeys_eq_filter]
  constructor
  · intro r
    rw [List.mem_filter, List.mem_filter,
      (List.perm_insertionSort createdDesc store).mem_iff,
      statusTest_iff status hs r, envTest_iff environment he r]
    tauto
  · exact (hsorted.filter _).filter _

/-- Witness for C1 at a concrete request and store. -/
theorem GETkeys_filters_and_orders_witness :
    (∀ r, r ∈ GETkeys (some ("active")) none [] ↔
      r ∈ ([] : List ApiKey) ∧ statusConstraint (some ("active")) r ∧
        envConstraint none r)
    ∧ (GETkeys (some ("active")) none []).Sorted createdDesc :=
  GETkeys_filters_and_orders (some ("active")) none []
    (by decide) (by decide)

/-! ## POST /api/keys (create) -/

/-- The JSON body of a create request; `none` models an absent field. -/
structure PostBody where
  name : Option String
  secret : Option String
  scopes : Option (List String)
  environment : Option String
deriving DecidableEq, Repr

/-- JS truthiness of a possibly-absent string: `null`/`undefined` and the
empty string are falsy. -/
def strTruthy : Option String → Bool
  | none => false
  | some s => s != ""

/-- JS truthiness of a possibly-absent array: any array, the empty array
included, is truthy. -/
def arrTruthy : Option (List String) → Bool
  | none => false
  | some _ => true

/-- The validation test of the POST handler:
`!name || !secret || !scopes || !environment` fails the request. -/
def postBodyValid (b : PostBody) : Bool :=
  strTruthy b.name && strTruthy b.secret && arrTruthy b.scopes &&
    strTruthy b.environment

/-- The values the store assigns on insert (`id` default
`gen_random_uuid()`, `created_at`/`updated_at` default `NOW()`). -/
structure StoreAssign where
  id : String
  created_at : Nat
  updated_at : Nat
deriving DecidableEq, Repr

/-- Outcome of the POST handler: 400, 201 with the created record, or 500. -/
inductive PostResult where
  | badRequest
  | created (rec : ApiKey)
  | storeFailure
deriving DecidableEq, Repr

/-- The `POST /api/keys` handler (`src/app/api/keys/route.ts`, lines
46-91).  If the truthiness validation fails the handler answers 400 and
never reaches the insert; otherwise it inserts the row with
`status: 'active'`, `last_used: null` and the body's other fields, the
store assigning `id`/`created_at`/`updated_at` (`assign = none` models a
store failure, answered with 500).  The second component records whether
the store insert was attempted. -/
def POSTkeys (b : PostBody) (assign : Option StoreAssign) :
    PostResult × Bool :=
  if postBodyValid b then
    match assign with
    | some a =>
      (.created
        { id := a.id
          name := b.name.getD ("")
          secret := b.secret.getD ("")
          status := "active"
          scopes := b.scopes.getD []
          created_at := a.created_at
          last_used := none
          environment := b.environment.getD ("")
          updated_at := a.updated_at }, true)
    | none => (.storeFailure, true)
  else (.badRequest, false)

/-- A sample stored record, used to instantiate witnesses. -/
def sampleKey1 : ApiKey :=
  { id := "550e8400-e29b-41d4-a716-446655440001"
    name := "Production API Key"
    secret := "groot_live_43fj9dhwq22n0x9p"
    status := "active"
    scopes := ["read", "write"]
    created_at := 100
    last_used := some 300
    environment := "production"
    updated_at := 100 }

/-- A second sample stored record, newer and revoked. -/
def sampleKey2 : ApiKey :=
  { id := "550e8400-e29b-41d4-a716-446655440002"
    name := "Staging Integration"
    secret := "groot_test_8ddm112ay2l288de"
    status := "revoked"
    scopes := ["read"]
    created_at := 200
    last_used := none
    environment := "staging"
    updated_at := 250 }

/-- C2, counterexample: The claim says a create request whose
`scopes` field is empty is rejected with 400 before any store insert is
attempted.  On the body of the spec's own create scenario with
`scopes: []`, the handler's truthiness check passes (an empty JS array is
truthy), the insert is attempted (second component `true`) and the
response is not a 400. -/
theorem POSTkeys_empty_scopes_not_rejected :
    (POSTkeys
      { name := some ("Mobile key"), secret := some ("groot_dev_abc123"),
        scopes := some [], environment := some ("development") }
      (some { id := "id-1", created_at := 7, updated_at := 7 })).2 = true
    ∧ (POSTkeys
      { name := some ("Mobile key"), secret := some ("groot_dev_abc123"),
        scopes := some [], environment := some ("development") }
      (some { id := "id-1", created_at := 7, updated_at := 7 })).1 ≠
        PostResult.badRequest := by
  constructor
  · rfl
  · decide

/-- C2, amended: If `name`, `secret` or `environment` is missing or
empty, or `scopes` is missing (absent — an empty `scopes` array passes
the truthiness check), the request is rejected with 400 and the store is
not called; otherwise the insert is attempted, a store failure yields
500, and a store success yields 201 with the created record. -/
theorem POSTkeys_validates_before_insert (b : PostBody)
    (assign : Option StoreAssign) :
    (postBodyValid b = false →
      POSTkeys b assign = (PostResult.badRequest, false))
    ∧ (postBodyValid b = true →
      (POSTkeys b assign).2 = true
      ∧ (assign = none →
          (POSTkeys b assign).1 = PostResult.storeFailure)
      ∧ (∀ a, assign = some a →
          ∃ rec, (POSTkeys b assign).1 = PostResult.created rec)) := by
  constructor
  · intro hv
    simp [POSTkeys, hv]
  · intro hv
    refine ⟨?_, ?_, ?_⟩
    · cases assign <;> simp [POSTkeys, hv]
    · intro ha; subst ha; simp [POSTkeys, hv]
    · intro a ha; subst ha
      simp only [POSTkeys, hv, if_true]
      exact ⟨_, rfl⟩

/-- Witness for the amended C2: a missing `name` is rejected without the
store being called. -/
theorem POSTkeys_validates_before_insert_witness :
    POSTkeys
      { name := none, secret := some ("groot_dev_abc123"),
        scopes := some ["read"], environment := some ("development") }
      (some { id := "id-1", created_at := 7, updated_at := 7 }) =
      (PostResult.badRequest, false) :=
  (POSTkeys_validates_before_insert
    { name := none, secret := some ("groot_dev_abc123"),
      scopes := some ["read"], environment := some ("development") }
    (some { id := "id-1", created_at := 7, updated_at := 7 })).1 (by decide)

/-- C3: For every create request that passes validation and every
store assignment, the response is 201 carrying the created record, whose
`status` is `"active"`, `last_used` is null, and whose `id`,
`created_at` and `updated_at` are exactly the store-assigned values. -/
theorem POSTkeys_created_record (b : PostBody) (a : StoreAssign)
    (hv : postBodyValid b = true) :
    ∃ rec, POSTkeys b (some a) = (PostResult.created rec, true)
      ∧ rec.status = "active"
      ∧ rec.last_used = none
      ∧ rec.id = a.id
      ∧ rec.created_at = a.created_at
      ∧ rec.updated_at = a.updated_at := by
  simp only [POSTkeys, hv, if_true]
  exact ⟨_, rfl, rfl, rfl, rfl, rfl, rfl⟩

/-- Witness for C3 on the spec's create scenario
(`{name: "Mobile key", secret: "groot_dev_abc123", scopes: ["read"],
environment: "development"}`). -/
theorem POSTkeys_created_record_witness :
    ∃ rec, POSTkeys
        { name := some ("Mobile key"), secret := some ("groot_dev_abc123"),
          scopes := some ["read"], environment := some ("development") }
        (some { id := "id-9", created_at := 41, updated_at := 41 }) =
        (PostResult.created rec, true)
      ∧ rec.status = "active"
      ∧ rec.last_used = none
      ∧ rec.id = "id-9"
      ∧ rec.created_at = 41
      ∧ rec.updated_at = 41 :=
  POSTkeys_created_record
    { name := some ("Mobile key"), secret := some ("groot_dev_abc123"),
      scopes := some ["read"], environment := some ("development") }
    { id := "id-9", created_at := 41, updated_at := 41 } (by decide)

/-! ## PATCH /api/keys/[id] (update) and the store trigger -/

/-- A PATCH body: any subset of the mutable fields.  `last_used` patches
to a nullable timestamp, hence the nested `Option`. -/
structure Patch where
  name : Option String := none
  secret : Option String := none
  status : Option String := none
  scopes : Option (List String) := none
  environment : Option String := none
  last_used : Option (Option Nat) := none
deriving DecidableEq, Repr

/-- Modelled from the spec: the `PATCH /keys/[id]` route handler is not
among the source files (only its client callers in
`src/app/dashboards/page.tsx` are).  Per spec §4.1 `update` applies the
patched subset of fields to the row and leaves the rest unchanged, and
per the trigger `update_api_keys_updated_at` of `src/supabase-schema.sql`
the store sets `updated_at = NOW()` (`now`) on every row mutation. -/
def applyPatch (p : Patch) (now : Nat) (r : ApiKey) : ApiKey :=
  { id := r.id
    name := p.name.getD r.name
    secret := p.secret.getD r.secret
    status := p.status.getD r.status
    scopes := p.scopes.getD r.scopes
    created_at := r.created_at
    last_used := p.last_used.getD r.last_used
    environment := p.environment.getD r.environment
    updated_at := now }

/-- Modelled from the spec: the store applies a PATCH to exactly the rows
whose `id` matches (a primary key, so at most one). -/
def updateStore (id : String) (p : Patch) (now : Nat)
    (store : List ApiKey) : List ApiKey :=
  store.map (fun r => if r.id = id then applyPatch p now r else r)

/-- The flip `key.status === "active" ? "revoked" : "active"` from `toggleStatus`
in `src/app/dashboards/page.tsx` (lines 589-611). -/
def flipStatus (s : String) : String :=
  if s == "active" then ("revoked") else ("active")

/-- The `toggleStatus` view-model operation on its success path
(`src/app/dashboards/page.tsx`, lines 589-611): look the record up in the
current list, then PATCH `{status: flipped}`; a missing id is an early
return. -/
def toggleStatus (id : String) (now : Nat) (store : List ApiKey) :
    List ApiKey :=
  match store.find? (fun r => r.id == id) with
  | none => store
  | some key => updateStore id { status := some (flipStatus key.status) } now store

theorem find?_id_eq_some (store : List ApiKey) (r : ApiKey)
    (hnd : (store.map ApiKey.id).Nodup) (hr : r ∈ store) :
    store.find? (fun x => x.id == r.id) = some r := by
  induction store with
  | nil => cases hr
  | cons h t ih =>
    rcases List.mem_cons.mp hr with hhr | htr
    · subst hhr
      simp [List.find?_cons]
    · have hne : h.id ≠ r.id := by
        intro heq
        have : r.id ∈ t.map ApiKey.id := List.mem_map_of_mem ApiKey.id htr
        rw [List.map_cons] at hnd
        exact (List.nodup_cons.mp hnd).1 (heq ▸ this)
      have hbeq : (h.id == r.id) = false := beq_eq_false_iff_ne.mpr hne
      rw [List.find?_cons, hbeq]
      exact ih (List.nodup_cons.mp (List.map_cons ApiKey.id h t ▸ hnd)).2 htr

theorem flipStatus_involutive (s : String) (hv : validStatus s) :
    flipStatus (flipStatus s) = s := by
  rcases hv with h | h <;> subst h <;> rfl

/-- C5: For a record of a store with primary-key-unique ids and a
schema-valid status, one Toggle Status flips active↔revoked on exactly
that record (also refreshing its `updated_at`, per the store trigger) and
leaves every other record unchanged; toggling twice returns the record to
its original status with no field other than `updated_at` changed, and
every other record unchanged. -/
theorem toggleStatus_twice_restores (store : List ApiKey) (r : ApiKey)
    (t1 t2 : Nat) (hnd : (store.map ApiKey.id).Nodup) (hr : r ∈ store)
    (hv : validStatus r.status) :
    toggleStatus r.id t1 store =
      store.map (fun x => if x.id = r.id then { x with status := flipStatus r.status, updated_at := t1 } else x)
    ∧ toggleStatus r.id t2 (toggleStatus r.id t1 store) =
      store.map (fun x => if x.id = r.id then { x with updated_at := t2 } else x) := by
  have hfind := find?_id_eq_some store r hnd hr
  have h1 : toggleStatus r.id t1 store =
      store.map (fun x => if x.id = r.id then { x with status := flipStatus r.status, updated_at := t1 } else x) := by
    unfold toggleStatus
    rw [hfind]
    rfl
  refine ⟨h1, ?_⟩
  rw [h1]
  set u1 : ApiKey → ApiKey :=
    fun x => if x.id = r.id then { x with status := flipStatus r.status, updated_at := t1 } else x with hu1
  have hid : ∀ x, (u1 x).id = x.id := by
    intro x
    by_cases h : x.id = r.id <;> simp [hu1, h]
  have hfind2 : (store.map u1).find? (fun x => x.id == r.id) = some (u1 r) := by
    rw [List.find?_map]
    have : ((fun x => x.id == r.id) ∘ u1) = fun x : ApiKey => x.id == r.id := by
      funext x
      simp [Function.comp, hid x]
    rw [this, hfind]
    rfl
  have hu1r : u1 r = { r with status := flipStatus r.status, updated_at := t1 } := by
    simp [hu1]
  unfold toggleStatus
  rw [hfind2, hu1r]
  show updateStore r.id { status := some (flipStatus (flipStatus r.status)) } t2 (store.map u1) =
    store.map (fun x => if x.id = r.id then { x with updated_at := t2 } else x)
  unfold updateStore
  rw [List.map_map]
  apply List.map_congr_left
  intro x hx
  by_cases h : x.id = r.id
  · have hxr : x = r := List.inj_on_of_nodup_map hnd hx hr h
    subst hxr
    simp only [Function.comp, hu1, if_pos rfl, applyPatch,
      flipStatus_involutive x.status hv]
    rfl
  · simp [Function.comp, hu1, h]

/-- Witness for C5: the concrete two-record store, toggling the first
sample record twice. -/
theorem toggleStatus_twice_restores_witness :
    toggleStatus sampleKey1.id 500 [sampleKey1, sampleKey2] =
      [sampleKey1, sampleKey2].map (fun x => if x.id = sampleKey1.id then { x with status := flipStatus sampleKey1.status, updated_at := 500 } else x)
    ∧ toggleStatus sampleKey1.id 600 (toggleStatus sampleKey1.id 500 [sampleKey1, sampleKey2]) =
      [sampleKey1, sampleKey2].map (fun x => if x.id = sampleKey1.id then { x with updated_at := 600 } else x) :=
  toggleStatus_twice_restores [sampleKey1, sampleKey2] sampleKey1 500 600
    (by decide) (by simp [sampleKey1, sampleKey2]) (by decide)

/-! ## Rotate -/

/-- The environment tag of a generated secret, from `generateSecret` in
`src/app/dashboards/page.tsx` (lines 402-406). -/
def envTag (env : String) : String :=
  if env == "production" then ("live")
  else if env == "staging" then ("test")
  else ("dev")

/-- The function `generateSecret` (`src/app/dashboards/page.tsx`, lines 402-406);
the three concatenated random six-character blocks are modelled as the
single parameter `rand`. -/
def generateSecret (env rand : String) : String :=
  "groot_" ++ envTag env ++ "_" ++ rand

/-- The `rotateKey` view-model operation on its success path
(`src/app/dashboards/page.tsx`, lines 564-587): look the record up in the
current list, PATCH `{secret: generateSecret(key.environment),
last_used: now}`, then refresh.  The Boolean records whether the refresh
(`fetchKeys`) was triggered; a missing id is an early return with no
request. -/
def rotateKey (id rand : String) (tLastUsed tUpdated : Nat)
    (store : List ApiKey) : List ApiKey × Bool :=
  match store.find? (fun r => r.id == id) with
  | none => (store, false)
  | some key =>
      (updateStore id
        { secret := some (generateSecret key.environment rand),
          last_used := some (some tLastUsed) } tUpdated store, true)

/-- C6: Rotating a record of a store with unique ids replaces its
secret by a freshly generated one whose prefix is derived from the
record's current environment, stamps `last_used` with the current time
(and `updated_at`, per the store trigger), leaves its `name`, `scopes`
and `status` (and every other record) unchanged, and triggers the
refresh. -/
theorem rotateKey_spec (store : List ApiKey) (r : ApiKey) (rand : String)
    (tl tu : Nat) (hnd : (store.map ApiKey.id).Nodup) (hr : r ∈ store) :
    rotateKey r.id rand tl tu store =
      (store.map (fun x => if x.id = r.id then { x with secret := generateSecret r.environment rand, last_used := some tl, updated_at := tu } else x), true)
    ∧ ∃ suffix, generateSecret r.environment rand =
        ("groot_" ++ envTag r.environment ++ "_") ++ suffix := by
  constructor
  · unfold rotateKey
    rw [find?_id_eq_some store r hnd hr]
    rfl
  · exact ⟨rand, rfl⟩

/-- Witness for C6: rotating the first sample record in the concrete
two-record store. -/
theorem rotateKey_spec_witness :
    rotateKey sampleKey1.id ("abc123xyz789") 700 700 [sampleKey1, sampleKey2] =
      ([sampleKey1, sampleKey2].map (fun x => if x.id = sampleKey1.id then { x with secret := generateSecret sampleKey1.environment ("abc123xyz789"), last_used := some 700, updated_at := 700 } else x), true)
    ∧ ∃ suffix, generateSecret sampleKey1.environment ("abc123xyz789") =
        ("groot_" ++ envTag sampleKey1.environment ++ "_") ++ suffix :=
  rotateKey_spec [sampleKey1, sampleKey2] sampleKey1 ("abc123xyz789") 700 700
    (by decide) (by simp [sampleKey1, sampleKey2])

/-! ## DELETE /api/keys/[id] -/

/-- Outcome of a DELETE request: 204/200 success or 404. -/
inductive DeleteResult where
  | success
  | notFound
deriving DecidableEq, Repr

/-- Modelled from the spec: the `DELETE /keys/[id]` route handler is not
among the source files (only its client caller `deleteKey` in
`src/app/dashboards/page.tsx` is).  Per spec §4.1 and §6, deleting an
existing id succeeds (`204`/`200`) and removes the row; deleting a
nonexistent id fails with `404` (`NotFoundError`) and is a no-op on the
store. -/
def DELETEkey (id : String) (store : List ApiKey) :
    DeleteResult × List ApiKey :=
  if store.any (fun r => r.id == id) then
    (.success, store.filter (fun r => !(r.id == id)))
  else (.notFound, store)

/-- C4: Deleting a nonexistent id fails with 404 and leaves the
stored records — hence also every later list result — unchanged;
deleting an existing id succeeds and the deleted id is absent from the
store and from every subsequent list result. -/
theorem DELETEkey_spec (id : String) (store : List ApiKey) :
    ((∀ r ∈ store, r.id ≠ id) →
      DELETEkey id store = (DeleteResult.notFound, store)
      ∧ ∀ st en, GETkeys st en (DELETEkey id store).2 = GETkeys st en store)
    ∧ ((∃ r ∈ store, r.id = id) →
      (DELETEkey id store).1 = DeleteResult.success
      ∧ (∀ r, r ∈ (DELETEkey id store).2 ↔ r ∈ store ∧ r.id ≠ id)
      ∧ (∀ st en r, r ∈ GETkeys st en (DELETEkey id store).2 → r.id ≠ id)) := by
  constructor
  · intro hnone
    have hany : store.any (fun r => r.id == id) = false := by
      rw [Bool.eq_false_iff]
      intro h
      obtain ⟨r, hrm, hrid⟩ := List.any_eq_true.mp h
      exact hnone r hrm (by simpa using hrid)
    have heq : DELETEkey id store = (DeleteResult.notFound, store) := by
      simp [DELETEkey, hany]
    exact ⟨heq, fun st en => by rw [heq]⟩
  · intro hsome
    have hany : store.any (fun r => r.id == id) = true :=
      List.any_eq_true.mpr (by
        obtain ⟨r, hrm, hrid⟩ := hsome
        exact ⟨r, hrm, by simpa using hrid⟩)
    have heq : DELETEkey id store =
        (DeleteResult.success, store.filter (fun r => !(r.id == id))) := by
      simp [DELETEkey, hany]
    refine ⟨by rw [heq], ?_, ?_⟩
    · intro r
      rw [heq]
      simp [List.mem_filter]
    · intro st en r hmem
      rw [heq] at hmem
      rw [GETkeys_eq_filter] at hmem
      have h1 := List.mem_filter.mp hmem
      have h2 := List.mem_filter.mp h1.1
      have h3 := (List.perm_insertionSort createdDesc _).mem_iff.mp h2.1
      have h4 := List.mem_filter.mp h3
      simpa using h4.2

/-- Witness for C4: deleting an id present in the concrete store, and the
deleted id absent from the store afterwards. -/
theorem DELETEkey_spec_witness :
    (DELETEkey sampleKey1.id [sampleKey1, sampleKey2]).1 =
      DeleteResult.success
    ∧ (∀ r, r ∈ (DELETEkey sampleKey1.id [sampleKey1, sampleKey2]).2 ↔
        r ∈ [sampleKey1, sampleKey2] ∧ r.id ≠ sampleKey1.id)
    ∧ (∀ st en r,
        r ∈ GETkeys st en (DELETEkey sampleKey1.id [sampleKey1, sampleKey2]).2 →
          r.id ≠ sampleKey1.id) :=
  (DELETEkey_spec sampleKey1.id [sampleKey1, sampleKey2]).2
    ⟨sampleKey1, by simp, rfl⟩

/-! ## View-model delete (confirmation, notification, refresh) -/

/-- A toast notification: message and severity
(`"success" | "error" | "info"`). -/
structure Toast where
  message : String
  severity : String
deriving DecidableEq, Repr

/-- Outcome of the `deleteKey` view-model operation
(`src/app/dashboards/page.tsx`, lines 613-633): whether the DELETE
request was issued, whether `fetchKeys` was triggered, the toast shown,
and the resulting stored records. -/
structure DeleteOutcome where
  requested : Bool
  refreshed : Bool
  toast : Option Toast
  keys : List ApiKey
deriving DecidableEq, Repr

/-- The operation `deleteKey` (`src/app/dashboards/page.tsx`, lines 613-633): a
declined `confirm` dialog is an early return; otherwise the DELETE
request is issued, a non-ok response throws into the catch block (error
toast, no refresh), and an ok response refreshes the list and shows a
toast whose severity is — deliberately — `"error"`. -/
def deleteKeyVM (confirmed : Bool) (id : String) (store : List ApiKey) :
    DeleteOutcome :=
  if !confirmed then
    { requested := false, refreshed := false, toast := none, keys := store }
  else
    match DELETEkey id store with
    | (.success, store2) =>
      { requested := true, refreshed := true,
        toast := some { message := "API key deleted successfully!", severity := "error" },
        keys := store2 }
    | (.notFound, _) =>
      { requested := true, refreshed := false,
        toast := some { message := "Failed to delete API key. Please try again.", severity := "error" },
        keys := store }

/-- C7: Delete is guarded by explicit confirmation: declined means no
request is issued and the state is unchanged; a confirmed delete of an
existing record issues the request, emits exactly one error-styled
notification and triggers the refresh; a confirmed delete that fails
emits exactly one error notification, does not refresh, and leaves the
records in place. -/
theorem deleteKeyVM_spec (confirmed : Bool) (id : String)
    (store : List ApiKey) :
    (confirmed = false →
      deleteKeyVM confirmed id store =
        { requested := false, refreshed := false, toast := none, keys := store })
    ∧ (confirmed = true → (∃ r ∈ store, r.id = id) →
      (deleteKeyVM confirmed id store).requested = true
      ∧ (deleteKeyVM confirmed id store).refreshed = true
      ∧ (deleteKeyVM confirmed id store).toast =
          some { message := "API key deleted successfully!", severity := "error" }
      ∧ ∀ r, r ∈ (deleteKeyVM confirmed id store).keys ↔
          r ∈ store ∧ r.id ≠ id)
    ∧ (confirmed = true → (∀ r ∈ store, r.id ≠ id) →
      deleteKeyVM confirmed id store =
        { requested := true, refreshed := false,
          toast := some { message := "Failed to delete API key. Please try again.", severity := "error" },
          keys := store }) := by
  refine ⟨?_, ?_, ?_⟩
  · intro hc; subst hc; rfl
  · intro hc hsome; subst hc
    have h := (DELETEkey_spec id store).2 hsome
    obtain ⟨h1, h2, _⟩ := h
    have hdel : DELETEkey id store =
        (DeleteResult.success, (DELETEkey id store).2) := by
      rw [← h1]
    have hvm : deleteKeyVM true id store =
        { requested := true, refreshed := true,
          toast := some { message := "API key deleted successfully!", severity := "error" },
          keys := (DELETEkey id store).2 } := by
      unfold deleteKeyVM
      rw [hdel]
      rfl
    exact ⟨by rw [hvm], by rw [hvm], by rw [hvm], fun r => by rw [hvm]; exact h2 r⟩
  · intro hc hnone; subst hc
    have h := ((DELETEkey_spec id store).1 hnone).1
    unfold deleteKeyVM
    rw [h]
    rfl

/-- Witness for C7: declining the confirmation on the concrete store
leaves everything unchanged. -/
theorem deleteKeyVM_spec_witness :
    deleteKeyVM false sampleKey1.id [sampleKey1, sampleKey2] =
      { requested := false, refreshed := false, toast := none,
        keys := [sampleKey1, sampleKey2] } :=
  (deleteKeyVM_spec false sampleKey1.id [sampleKey1, sampleKey2]).1 rfl

/-! ## Notifications per operation -/

/-- The five mutating view-model operations. -/
inductive OpKind where
  | create
  | save
  | rotate
  | toggle
  | delete
deriving DecidableEq, Repr

/-- What each operation emits on its success (`true`) and failure
(`false`) path, read off `createKey`/`saveEdit`/`rotateKey`/
`toggleStatus`/`deleteKey` in `src/app/dashboards/page.tsx`: `toasts`
are the `showToastNotification` calls (auto-dismissing), `alerts` the
blocking `alert` calls. -/
def opEmission : OpKind → Bool → List Toast × List String
  | .create, true =>
    ([{ message := "API key created successfully!", severity := "success" }], [])
  | .create, false =>
    ([{ message := "Failed to create API key. Please try again.", severity := "error" }], [])
  | .save, true =>
    ([{ message := "API key updated successfully!", severity := "success" }], [])
  | .save, false =>
    ([{ message := "Failed to update API key. Please try again.", severity := "error" }], [])
  | .rotate, true => ([], [])
  | .rotate, false => ([], ["Failed to rotate API key. Please try again."])
  | .toggle, true => ([], [])
  | .toggle, false => ([], ["Failed to toggle API key status. Please try again."])
  | .delete, true =>
    ([{ message := "API key deleted successfully!", severity := "error" }], [])
  | .delete, false =>
    ([{ message := "Failed to delete API key. Please try again.", severity := "error" }], [])

/-- C8, counterexample: The claim says every mutating operation
emits exactly one auto-dismissing notification on both paths; a
successful rotate emits none (and a successful toggle likewise; their
failure paths use a blocking `alert`, not a toast). -/
theorem opEmission_not_one_per_path :
    ¬ (∀ (k : OpKind) (success : Bool),
        ((opEmission k success).1).length = 1) := by
  intro h
  have := h OpKind.rotate true
  simp [opEmission] at this

/-- C8, amended: Create, save and delete emit exactly one
auto-dismissing toast (classified success/error) and no alert on both
their success and failure paths; rotate and toggle status emit no toast
at all — nothing on success, and one blocking `alert` (not
auto-dismissing) on failure. -/
theorem opEmission_per_operation (success : Bool) :
    (∀ k, (k = OpKind.create ∨ k = OpKind.save ∨ k = OpKind.delete) →
      ((opEmission k success).1).length = 1
      ∧ (∀ t ∈ (opEmission k success).1,
          t.severity = "success" ∨ t.severity = "error")
      ∧ (opEmission k success).2 = [])
    ∧ (∀ k, (k = OpKind.rotate ∨ k = OpKind.toggle) →
      (opEmission k success).1 = []
      ∧ ((opEmission k success).2).length = if success then 0 else 1) := by
  constructor
  · rintro k (rfl | rfl | rfl) <;> cases success <;>
      refine ⟨rfl, ?_, rfl⟩ <;> intro t ht <;> simp [opEmission] at ht <;>
      simp [ht]
  · rintro k (rfl | rfl) <;> cases success <;> exact ⟨rfl, rfl⟩

/-- Witness for the amended C8: a successful delete emits exactly one
toast and no alert, a failed rotate emits no toast and one alert. -/
theorem opEmission_per_operation_witness :
    (((opEmission OpKind.delete true).1).length = 1
      ∧ (∀ t ∈ (opEmission OpKind.delete true).1,
          t.severity = "success" ∨ t.severity = "error")
      ∧ (opEmission OpKind.delete true).2 = [])
    ∧ ((opEmission OpKind.rotate false).1 = []
      ∧ ((opEmission OpKind.rotate false).2).length = 1) := by
  constructor
  · exact (opEmission_per_operation true).1 OpKind.delete (Or.inr (Or.inr rfl))
  · have h := (opEmission_per_operation false).2 OpKind.rotate (Or.inl rfl)
    simpa using h

/-! ## Toast display state and auto-dismissal -/

/-- The toast display state of the dashboard
(`showToast`/`toastMessage`/`toastType` in
`src/app/dashboards/page.tsx`) together with the pending `setTimeout`
callbacks, modelled as the list of instants at which they will fire. -/
structure ToastState where
  showToast : Bool
  toastMessage : String
  toastType : String
  timers : List Nat
deriving DecidableEq, Repr

/-- The helper `showToastNotification` (`src/app/dashboards/page.tsx`, lines
463-470) called at instant `now`: sets the message, the type and the
visibility, and schedules a `setTimeout` callback 3000 ms later;
previously scheduled callbacks are not cleared. -/
def showToastNotification (message ttype : String) (now : Nat)
    (s : ToastState) : ToastState :=
  { showToast := true, toastMessage := message, toastType := ttype,
    timers := s.timers ++ [now + 3000] }

/-- A pending `setTimeout` callback firing at instant `t`: its body
unconditionally runs `setShowToast(false)`. -/
def fireTimer (t : Nat) (s : ToastState) : ToastState :=
  if t ∈ s.timers then
    { s with showToast := false, timers := s.timers.erase t }
  else s

/-- C9, counterexample: The claim says a new notification restarts
the dismissal timer and so stays visible for the full 3000 ms interval.
Show one toast at instant 0 and a second at instant 2000: the second
replaces the first, but the first call's still-pending timeout fires at
instant 3000 and hides the second toast after only 1000 ms of its
interval. -/
theorem showToastNotification_dismissed_early :
    (showToastNotification ("API key deleted successfully!") ("error") 2000
        (showToastNotification ("API key created successfully!") ("success") 0
          { showToast := false, toastMessage := "", toastType := "success", timers := [] })).toastMessage =
      "API key deleted successfully!"
    ∧ (fireTimer 3000
        (showToastNotification ("API key deleted successfully!") ("error") 2000
          (showToastNotification ("API key created successfully!") ("success") 0
            { showToast := false, toastMessage := "", toastType := "success", timers := [] }))).showToast = false
    ∧ 3000 < 2000 + 3000 := by
  refine ⟨rfl, ?_, by decide⟩
  decide

/-- C9, amended: A new notification replaces any currently displayed
one (the display state holds a single message, set unconditionally) and
a fresh 3000 ms dismissal timeout is scheduled — but the previous
timeout is not cancelled, so whenever an earlier pending timeout fires
it hides the currently displayed notification, possibly before its full
interval has elapsed. -/
theorem showToastNotification_replaces (message ttype : String) (now : Nat)
    (s : ToastState) (t : Nat) (ht : t ∈ s.timers) :
    (showToastNotification message ttype now s).toastMessage = message
    ∧ (showToastNotification message ttype now s).toastType = ttype
    ∧ (showToastNotification message ttype now s).showToast = true
    ∧ (showToastNotification message ttype now s).timers =
        s.timers ++ [now + 3000]
    ∧ (fireTimer t (showToastNotification message ttype now s)).showToast =
        false := by
  refine ⟨rfl, rfl, rfl, rfl, ?_⟩
  have : t ∈ (showToastNotification message ttype now s).timers :=
    List.mem_append_left _ ht
  simp [fireTimer, this]

/-- Witness for the amended C9 at a concrete state with one pending
timeout. -/
theorem showToastNotification_replaces_witness :
    (showToastNotification ("API key deleted successfully!") ("error") 2000
        { showToast := true, toastMessage := "API key created successfully!", toastType := "success", timers := [3000] }).toastMessage =
      "API key deleted successfully!"
    ∧ (showToastNotification ("API key deleted successfully!") ("error") 2000
        { showToast := true, toastMessage := "API key created successfully!", toastType := "success", timers := [3000] }).toastType = "error"
    ∧ (showToastNotification ("API key deleted successfully!") ("error") 2000
        { showToast := true, toastMessage := "API key created successfully!", toastType := "success", timers := [3000] }).showToast = true
    ∧ (showToastNotification ("API key deleted successfully!") ("error") 2000
        { showToast := true, toastMessage := "API key created successfully!", toastType := "success", timers := [3000] }).timers =
        [3000] ++ [2000 + 3000]
    ∧ (fireTimer 3000
        (showToastNotification ("API key deleted successfully!") ("error") 2000
          { showToast := true, toastMessage := "API key created successfully!", toastType := "success", timers := [3000] })).showToast =
        false :=
  showToastNotification_replaces ("API key deleted successfully!") ("error")
    2000
    { showToast := true, toastMessage := "API key created successfully!", toastType := "success", timers := [3000] }
    3000 (by decide)

/-! ## Client-side filtering of the rendered table -/

/-- The memo `filteredKeys` (`src/app/dashboards/page.tsx`, lines 483-489): the
list actually rendered is the fetched list filtered by the active status
and environment selections, each with the `"all"` sentinel. -/
def filteredKeys (filterStatus filterEnvironment : String)
    (keys : List ApiKey) : List ApiKey :=
  keys.filter (fun key =>
    (filterStatus == "all" || key.status == filterStatus) &&
    (filterEnvironment == "all" || key.environment == filterEnvironment))

/-- C10: Every record rendered in the key table satisfies the active
filter selection conjunctively — whatever records the in-memory fetched
list contains. -/
theorem filteredKeys_match_selection (filterStatus filterEnvironment : String)
    (keys : List ApiKey) (r : ApiKey)
    (h : r ∈ filteredKeys filterStatus filterEnvironment keys) :
    (filterStatus = "all" ∨ r.status = filterStatus)
    ∧ (filterEnvironment = "all" ∨ r.environment = filterEnvironment) := by
  have h' := List.mem_filter.mp h
  have hb := h'.2
  simp only [Bool.and_eq_true, Bool.or_eq_true, beq_iff_eq] at hb
  exact hb

/-- Witness for C10: a fetched list holding a revoked record, with the
`active` status filter selected; the rendered first sample record
matches the selection. -/
theorem filteredKeys_match_selection_witness :
    (("active" : String) = "all" ∨ sampleKey1.status = "active")
    ∧ (("all" : String) = "all" ∨ sampleKey1.environment = "all") :=
  filteredKeys_match_selection ("active") ("all") [sampleKey1, sampleKey2]
    sampleKey1 (by decide)
